import Mathlib

/-!
Verification development for the AI_Day_trading repository.

The definitions below are a shallow embedding of the Python source:

* `src/modules/technical_indicators.py` — indicator columns, support/resistance
  levels, the day-trading signal composer, and the stop-loss helper;
* `src/modules/database.py` — the SQLite cache (`stock_prices`,
  `institutional_trades`, `news_cache` tables).

Real numbers of the source (pandas floats) are modelled as `ℚ`; a pandas
`NaN` cell is modelled as `none : Option ℚ`.  Mutable SQLite tables are
modelled as lists of typed rows, with each write operation an explicit
state-passing function.  SQLite `TEXT` ordering is byte order on the
encoded string, embedded by `strLt` below.
-/

/-! ## Generic helpers -/

/-- Byte-wise (code-point) lexicographic comparison of character lists,
the order SQLite uses when comparing two `TEXT` values. -/
def strLtAux : List Char → List Char → Bool
  | [], [] => false
  | [], _ :: _ => true
  | _ :: _, [] => false
  | a :: as, b :: bs =>
    if a.val < b.val then true
    else if b.val < a.val then false
    else strLtAux as bs

/-- SQLite `TEXT` comparison `a < b` (byte order). -/
def strLt (a b : String) : Bool := strLtAux a.data b.data

/-- Python `round` to an integer: round half to even (banker's rounding),
on exact rational values. -/
def pyRoundInt (x : ℚ) : ℤ :=
  let f := ⌊x⌋
  let frac := x - (f : ℚ)
  if frac < 1/2 then f
  else if 1/2 < frac then f + 1
  else if f % 2 = 0 then f else f + 1

/-- Python `round(x, 2)`, on exact rational values. -/
def pyRound2 (x : ℚ) : ℚ := (pyRoundInt (x * 100) : ℚ) / 100

/-! ## Signal composer (`get_daytrading_signals`)

One row of the indicator-augmented dataframe, restricted to the columns the
signal composer reads.  The Python function reads these cells as plain
floats; here they are the given rational snapshot values.
`VolumeRatioPct` embeds the source column `Volume_Ratio`. -/

structure Snap where
  date : String
  close : ℚ
  MACD : ℚ
  MACD_signal : ℚ
  KD_K : ℚ
  KD_D : ℚ
  RSI : ℚ
  Williams_R : ℚ
  ADX : ℚ
  DI_plus : ℚ
  DI_minus : ℚ
  CCI : ℚ
  OBV : ℚ
  BB_upper : ℚ
  BB_lower : ℚ
  VolumeRatioPct : ℚ
  ROC_5 : ℚ
deriving Repr, DecidableEq

/-- The result dictionary of `get_daytrading_signals`. -/
structure Signals where
  timestamp : String
  price : ℚ
  signals : List String
  strength : ℤ
  recommendation : String
deriving Repr, DecidableEq

/-- Rule 1 of `get_daytrading_signals`: MACD golden / death cross. -/
def macdRule (prevRow latest : Snap) : List String × ℤ :=
  if latest.MACD > latest.MACD_signal ∧ prevRow.MACD ≤ prevRow.MACD_signal then
    (["MACD 金叉 (買進)"], 15)
  else if latest.MACD < latest.MACD_signal ∧ prevRow.MACD ≥ prevRow.MACD_signal then
    (["MACD 死叉 (賣出)"], -15)
  else ([], 0)

/-- Rule 2: KD golden / death cross, with oversold / overbought variants. -/
def kdRule (prevRow latest : Snap) : List String × ℤ :=
  if latest.KD_K > latest.KD_D ∧ prevRow.KD_K ≤ prevRow.KD_D then
    (if latest.KD_K < 30 then (["KD 低檔金叉 (強買)"], 20) else (["KD 金叉 (買進)"], 10))
  else if latest.KD_K < latest.KD_D ∧ prevRow.KD_K ≥ prevRow.KD_D then
    (if latest.KD_K > 70 then (["KD 高檔死叉 (強賣)"], -20) else (["KD 死叉 (賣出)"], -10))
  else ([], 0)

/-- Rule 3: RSI oversold / overbought. -/
def rsiRule (latest : Snap) : List String × ℤ :=
  if latest.RSI < 30 then (["RSI 超賣 (買進)"], 15)
  else if latest.RSI > 70 then (["RSI 超買 (賣出)"], -15)
  else ([], 0)

/-- Rule 4: Williams %R overbought / oversold. -/
def wrRule (latest : Snap) : List String × ℤ :=
  if latest.Williams_R > -20 then (["Williams %R 超買 (賣出)"], -10)
  else if latest.Williams_R < -80 then (["Williams %R 超賣 (買進)"], 10)
  else ([], 0)

/-- Rule 5: ADX trend strength with DI direction. -/
def adxRule (latest : Snap) : List String × ℤ :=
  if latest.ADX > 25 then
    (if latest.DI_plus > latest.DI_minus then (["ADX 強勢上漲趨勢"], 10)
     else (["ADX 強勢下跌趨勢"], -10))
  else ([], 0)

/-- Rule 6: CCI overbought / oversold. -/
def cciRule (latest : Snap) : List String × ℤ :=
  if latest.CCI > 100 then (["CCI 超買 (賣出)"], -10)
  else if latest.CCI < -100 then (["CCI 超賣 (買進)"], 10)
  else ([], 0)

/-- Rule 7: OBV divergence against the close five bars back
(`df.iloc[-5]`, i.e. index 4 of the reversed frame); skipped when
`len(df) < 5`. -/
def obvRule (rev : List Snap) (latest : Snap) : List String × ℤ :=
  match rev.get? 4 with
  | some old =>
    if latest.close > old.close ∧ ¬latest.OBV > old.OBV then (["⚠️ OBV 頂背離 (賣出)"], -15)
    else if ¬latest.close > old.close ∧ latest.OBV > old.OBV then (["✅ OBV 底背離 (買進)"], 15)
    else ([], 0)
  | none => ([], 0)

/-- Rule 8: Bollinger band breakout. -/
def bbRule (latest : Snap) : List String × ℤ :=
  if latest.close > latest.BB_upper then (["突破布林上軌 (強勢/超買)"], 5)
  else if latest.close < latest.BB_lower then (["跌破布林下軌 (弱勢/超賣)"], -5)
  else ([], 0)

/-- Rule 9: abnormal volume (flag only). -/
def volRule (latest : Snap) : List String × ℤ :=
  if latest.VolumeRatioPct > 150 then (["🔥 成交量爆量 (注意)"], 5)
  else ([], 0)

/-- Rule 10: 5-bar rate-of-change momentum. -/
def rocRule (latest : Snap) : List String × ℤ :=
  if latest.ROC_5 > 5 then (["短期動能強勁"], 10)
  else if latest.ROC_5 < -5 then (["短期動能疲弱"], -10)
  else ([], 0)

/-- The recommendation thresholds of `get_daytrading_signals`, applied to
the raw (un-clamped) score, exactly as in the source. -/
def recommendationOf (score : ℤ) : String :=
  if score ≥ 30 then "STRONG_BUY"
  else if score ≥ 15 then "BUY"
  else if score ≤ -30 then "STRONG_SELL"
  else if score ≤ -15 then "SELL"
  else "HOLD"

/-- `get_daytrading_signals(df)`: `None` for fewer than two rows, otherwise
the composite report.  `latest`/`prevRow` are `df.iloc[-1]`/`df.iloc[-2]`,
i.e. the first two entries of the reversed list.  The strength is the raw
score clamped to `[-100, 100]`. -/
def get_daytrading_signals (df : List Snap) : Option Signals :=
  match df.reverse with
  | latest :: prevRow :: rest =>
    let r1 := macdRule prevRow latest
    let r2 := kdRule prevRow latest
    let r3 := rsiRule latest
    let r4 := wrRule latest
    let r5 := adxRule latest
    let r6 := cciRule latest
    let r7 := obvRule (latest :: prevRow :: rest) latest
    let r8 := bbRule latest
    let r9 := volRule latest
    let r10 := rocRule latest
    let score := r1.2 + r2.2 + r3.2 + r4.2 + r5.2 + r6.2 + r7.2 + r8.2 + r9.2 + r10.2
    some { timestamp := latest.date
           price := latest.close
           signals := r1.1 ++ r2.1 ++ r3.1 ++ r4.1 ++ r5.1 ++ r6.1 ++ r7.1 ++ r8.1 ++ r9.1 ++ r10.1
           strength := max (min score 100) (-100)
           recommendation := recommendationOf score }
  | _ => none

/-! ## Stop-loss helper (`calculate_stop_loss_take_profit`)

The source rounds every output to two decimals with Python `round`.
The literals `1.5` and `2.5` of the source are written `3/2` and `5/2`.
The output key `risk_reward_ratio` is embedded as field `rrSetting`
(the source name is kept in spirit; see the structure doc). -/

structure StopLossAdvice where
  stop_loss : ℚ
  take_profit : ℚ
  conservative_stop : ℚ
  aggressive_stop : ℚ
  risk_amount : ℚ
  reward_amount : ℚ
  rrSetting : ℚ
deriving Repr, DecidableEq

/-- `calculate_stop_loss_take_profit(current_price, atr, risk_reward_ratio)`
(the third argument defaults to 2 at the call sites of the source). -/
def calculate_stop_loss_take_profit (current_price atr rrr : ℚ) : StopLossAdvice :=
  let stop_loss := current_price - atr * 2
  let take_profit := current_price + atr * 2 * rrr
  let conservative_stop := current_price - atr * (3/2)
  let aggressive_stop := current_price - atr * (5/2)
  { stop_loss := pyRound2 stop_loss
    take_profit := pyRound2 take_profit
    conservative_stop := pyRound2 conservative_stop
    aggressive_stop := pyRound2 aggressive_stop
    risk_amount := pyRound2 (current_price - stop_loss)
    reward_amount := pyRound2 (take_profit - current_price)
    rrSetting := rrr }

/-! ## SQLite cache (`database.py`)

### `stock_prices` and `save_stock_data`

The table has `UNIQUE(symbol, date)`.  `save_stock_data` appends the frame
with `DataFrame.to_sql(..., if_exists='append', method='multi')`, which
issues a plain multi-row `INSERT` (no `OR REPLACE`).  If any inserted key
collides — with a stored row or within the batch — SQLite raises, the
`except` branch swallows the error and calls `rollback()`, and the table
is left unchanged.  Otherwise the rows are appended and committed. -/

structure BarIn where
  date : String
  opn : ℚ
  high : ℚ
  low : ℚ
  close : ℚ
  volume : ℤ
deriving Repr, DecidableEq

structure PriceRow where
  symbol : String
  date : String
  opn : ℚ
  high : ℚ
  low : ℚ
  close : ℚ
  volume : ℤ
deriving Repr, DecidableEq

/-- The rows `save_stock_data` prepares from the input frame: the symbol
column is added and only the base columns are kept. -/
def pricesOf (symbol : String) (df : List BarIn) : List PriceRow :=
  df.map (fun b =>
    { symbol := symbol, date := b.date, opn := b.opn, high := b.high
      low := b.low, close := b.close, volume := b.volume })

/-- Does inserting `rows` into `table` violate `UNIQUE(symbol, date)`?
True when a batch key is already stored or occurs twice in the batch. -/
def insertConflicts (table rows : List PriceRow) : Bool :=
  match rows with
  | [] => false
  | r :: rest =>
    table.any (fun e => e.symbol = r.symbol ∧ e.date = r.date) ||
    rest.any (fun e => e.symbol = r.symbol ∧ e.date = r.date) ||
    insertConflicts table rest

/-- `StockDatabase.save_stock_data(symbol, df)`: empty input is skipped;
a conflicting batch is rolled back whole (the caught exception leaves the
table untouched); otherwise the batch is appended. -/
def save_stock_data (table : List PriceRow) (symbol : String) (df : List BarIn) :
    List PriceRow :=
  if df.isEmpty then table
  else
    let rows := pricesOf symbol df
    if insertConflicts table rows then table else table ++ rows

/-! ### `institutional_trades` and `save_institutional_data`

The table also has `UNIQUE(symbol, date)`.  The writer first runs
`DELETE FROM institutional_trades WHERE symbol = ?`, then inserts each
batch row with `INSERT OR REPLACE`.  The input frame is modelled as typed
rows (the source's required-column check always passes), with `date`
already in its stored `YYYY-MM-DD` string form. -/

structure InstIn where
  date : String
  foreign_investor : ℚ
  investment_trust : ℚ
  dealer_self : ℚ
  dealer_hedging : ℚ
  dealer_total : ℚ
  total_institutional : ℚ
deriving Repr, DecidableEq

structure InstRow where
  symbol : String
  date : String
  foreign_investor : ℚ
  investment_trust : ℚ
  dealer_self : ℚ
  dealer_hedging : ℚ
  dealer_total : ℚ
  total_institutional : ℚ
deriving Repr, DecidableEq

/-- One `INSERT OR REPLACE` into `institutional_trades`: any stored row
with the same `(symbol, date)` key is replaced, the new row lands at the
end. -/
def instInsertOrReplace (table : List InstRow) (r : InstRow) : List InstRow :=
  table.filter (fun e => ¬(e.symbol = r.symbol ∧ e.date = r.date)) ++ [r]

/-- The row `save_institutional_data` builds for symbol `s` from one input
record. -/
def instRowOf (s : String) (b : InstIn) : InstRow :=
  { symbol := s, date := b.date, foreign_investor := b.foreign_investor
    investment_trust := b.investment_trust, dealer_self := b.dealer_self
    dealer_hedging := b.dealer_hedging, dealer_total := b.dealer_total
    total_institutional := b.total_institutional }

/-- `StockDatabase.save_institutional_data(symbol, df)`: empty input
returns `False` before touching the table; otherwise all stored rows of
the symbol are deleted, the batch is inserted row by row with
`INSERT OR REPLACE`, and `True` is returned. -/
def save_institutional_data (table : List InstRow) (symbol : String) (df : List InstIn) :
    List InstRow × Bool :=
  if df.isEmpty then (table, false)
  else
    let cleared := table.filter (fun e => ¬e.symbol = symbol)
    ((df.map (instRowOf symbol)).foldl instInsertOrReplace cleared, true)

/-! ### `news_cache`, timestamps and TTL

`save_news_cache` stores `expires_at = (datetime.now() + timedelta(hours=h)).isoformat()`
— an ISO-8601 string with a `'T'` separator — while `get_news_cache`
filters with the SQL predicate `expires_at > datetime('now')`, where
SQLite renders the current instant as `YYYY-MM-DD HH:MM:SS` with a space
separator, and compares the two as raw `TEXT`.  Both clock reads are
modelled with one wall clock passed explicitly (i.e. the process runs in
UTC, the reading most favourable to the spec's TTL claim). -/

structure DateTime where
  year : ℕ
  month : ℕ
  day : ℕ
  hour : ℕ
  minute : ℕ
  second : ℕ
  micro : ℕ
deriving Repr, DecidableEq

/-- Days in a month (proleptic Gregorian, as Python's `datetime`). -/
def daysInMonth (y m : ℕ) : ℕ :=
  if m = 2 then
    if y % 4 = 0 ∧ (y % 100 ≠ 0 ∨ y % 400 = 0) then 29 else 28
  else if m = 4 ∨ m = 6 ∨ m = 9 ∨ m = 11 then 30
  else 31

/-- Step one calendar day. -/
def nextDay (t : DateTime) : DateTime :=
  if t.day < daysInMonth t.year t.month then { t with day := t.day + 1 }
  else if t.month < 12 then { t with month := t.month + 1, day := 1 }
  else { t with year := t.year + 1, month := 1, day := 1 }

/-- `t + timedelta(hours=h)` for a whole number of hours. -/
def addHours (t : DateTime) (h : ℕ) : DateTime :=
  let hh := t.hour + h
  nextDay^[hh / 24] { t with hour := hh % 24 }

/-- Decimal digit character. -/
def digit (n : ℕ) : Char := Char.ofNat (48 + n % 10)

/-- Two-digit zero-padded decimal. -/
def pad2 (n : ℕ) : String := ⟨[digit (n / 10), digit n]⟩

/-- Four-digit zero-padded decimal. -/
def pad4 (n : ℕ) : String := ⟨[digit (n / 1000), digit (n / 100), digit (n / 10), digit n]⟩

/-- Six-digit zero-padded decimal. -/
def pad6 (n : ℕ) : String :=
  ⟨[digit (n / 100000), digit (n / 10000), digit (n / 1000),
    digit (n / 100), digit (n / 10), digit n]⟩

/-- Python `datetime.isoformat()`: `'T'` separator, microseconds appended
only when non-zero. -/
def isoformat (t : DateTime) : String :=
  pad4 t.year ++ "-" ++ pad2 t.month ++ "-" ++ pad2 t.day ++ "T" ++
    pad2 t.hour ++ ":" ++ pad2 t.minute ++ ":" ++ pad2 t.second ++
    (if t.micro = 0 then "" else "." ++ pad6 t.micro)

/-- SQLite `datetime('now')` / `CURRENT_TIMESTAMP`: space separator, no
sub-second part. -/
def sqliteFormat (t : DateTime) : String :=
  pad4 t.year ++ "-" ++ pad2 t.month ++ "-" ++ pad2 t.day ++ " " ++
    pad2 t.hour ++ ":" ++ pad2 t.minute ++ ":" ++ pad2 t.second

structure NewsRow where
  symbol : String
  content : String
  source : String
  created_at : String
  expires_at : String
deriving Repr, DecidableEq

/-- `save_news_cache(symbol, content, source, expires_hours)` at wall-clock
instant `now`: `INSERT OR REPLACE` on `UNIQUE(symbol, created_at)`, with
`created_at` filled by the `CURRENT_TIMESTAMP` column default and
`expires_at = (now + expires_hours).isoformat()`. -/
def save_news_cache (table : List NewsRow) (symbol content source : String)
    (expiresHours : ℕ) (now : DateTime) : List NewsRow :=
  let row : NewsRow :=
    { symbol := symbol, content := content, source := source
      created_at := sqliteFormat now
      expires_at := isoformat (addHours now expiresHours) }
  table.filter (fun e => ¬(e.symbol = row.symbol ∧ e.created_at = row.created_at)) ++ [row]

/-- `get_news_cache(symbol)` at instant `now`: among rows of the symbol
with `expires_at > datetime('now')` (raw `TEXT` comparison), the one with
the greatest `created_at` (`ORDER BY created_at DESC LIMIT 1`), as a
`(content, source, created_at)` triple. -/
def get_news_cache (table : List NewsRow) (symbol : String) (now : DateTime) :
    Option (String × String × String) :=
  let live := table.filter (fun e => e.symbol = symbol ∧ strLt (sqliteFormat now) e.expires_at)
  let best := live.foldl
    (fun acc e =>
      match acc with
      | none => some e
      | some b => if strLt b.created_at e.created_at then some e else some b)
    none
  best.map (fun e => (e.content, e.source, e.created_at))

/-! ## Indicator engine (`calculate_technical_indicators`)

The numeric kernels of the `ta` package (SMA etc.) are third-party code
that is not part of this repository; every definition below marked
`Modelled from the spec` embeds such a kernel from the specification's
formula.  The remaining columns (`OBV_MA5`, `Volume_MA5`, `Volume_MA20`,
`Volume_Ratio`, `ROC_5`, `ROC_10`, `BIAS_5`, `VWAP`) are computed by the
repository itself with pandas `rolling(...).mean()`, `shift(...)` and
`groupby(...).cumsum()`, embedded here with those pandas semantics:
a `rolling(w).mean()` cell is `NaN` (here `none`) until `w` observations
exist, `shift(k)` is `NaN` for the first `k` positions, and arithmetic on
`NaN` stays `NaN`. -/

/-- One OHLCV input bar.  `day` is the calendar day extracted by
`pd.to_datetime(df['date']).dt.date`. -/
structure Bar where
  day : String
  high : ℚ
  low : ℚ
  close : ℚ
  volume : ℚ
deriving Repr, DecidableEq

/-- pandas `Series.rolling(w).mean()` (default `min_periods`, hence equal
to the window): position `i` holds the mean of the last `w` values once
`i + 1 ≥ w`, and `NaN` (`none`) before that.  Modelled from the spec:
this is also the simple-moving-average kernel of the `ta` package used
for `MA5/MA10/MA20/MA60`, per the spec's SMA formula and its rule that
the first `w − 1` positions are undefined. -/
def rollingMean (w : ℕ) (xs : List ℚ) : List (Option ℚ) :=
  (List.range xs.length).map (fun i =>
    if w ≤ i + 1 then some ((((xs.take (i + 1)).drop (i + 1 - w)).sum) / (w : ℚ)) else none)

/-- pandas `(s - s.shift(k)) / s.shift(k) * 100` (the `ROC_k` columns):
`NaN` for the first `k` positions. -/
def rocList (k : ℕ) (xs : List ℚ) : List (Option ℚ) :=
  (List.range xs.length).map (fun i =>
    if k ≤ i then some ((xs.getD i 0 - xs.getD (i - k) 0) / xs.getD (i - k) 0 * 100) else none)

/-- On-Balance Volume.  Modelled from the spec: cumulative sum of
`±volume` with the sign of `close − prevClose`, a tie contributing 0; the
first bar contributes `+volume` (the `np.where` comparison with a shifted
`NaN` is false, selecting the positive branch). -/
def obvList (df : List Bar) : List ℚ :=
  go none 0 df
where
  go (prevClose : Option ℚ) (acc : ℚ) : List Bar → List ℚ
    | [] => []
    | b :: rest =>
      let contrib :=
        match prevClose with
        | none => b.volume
        | some pc => if b.close < pc then -b.volume else if b.close > pc then b.volume else 0
      (acc + contrib) :: go (some b.close) (acc + contrib) rest

/-- Association-list read used by the grouped cumulative sum. -/
def alistGet (k : String) : List (String × ℚ) → Option ℚ
  | [] => none
  | (k', v) :: rest => if k' = k then some v else alistGet k rest

/-- Association-list write used by the grouped cumulative sum. -/
def alistSet (k : String) (v : ℚ) : List (String × ℚ) → List (String × ℚ)
  | [] => [(k, v)]
  | (k', v') :: rest => if k' = k then (k, v) :: rest else (k', v') :: alistSet k v rest

/-- Worker for pandas `groupby(key).cumsum()`: one left-to-right sweep
carrying, per key, the sum accumulated so far. -/
def gcsAux (acc : List (String × ℚ)) : List (String × ℚ) → List ℚ
  | [] => []
  | (k, v) :: rest =>
    let s := (alistGet k acc).getD 0 + v
    s :: gcsAux (alistSet k s acc) rest

/-- pandas `df.groupby(key)[col].cumsum()` over `(key, value)` pairs. -/
def groupCumsum (pairs : List (String × ℚ)) : List ℚ := gcsAux [] pairs

/-- The indicator columns of `calculate_technical_indicators` embedded
here (see the section comment for which are spec-modelled). -/
structure IndRow where
  day : String
  close : ℚ
  volume : ℚ
  MA5 : Option ℚ
  MA10 : Option ℚ
  MA20 : Option ℚ
  MA60 : Option ℚ
  OBV : ℚ
  OBV_MA5 : Option ℚ
  VWAP : ℚ
  BIAS_5 : Option ℚ
  Volume_MA5 : Option ℚ
  Volume_MA20 : Option ℚ
  VolumeRatioPct : Option ℚ
  ROC_5 : Option ℚ
  ROC_10 : Option ℚ
deriving Repr, DecidableEq

/-- `calculate_technical_indicators(df)`, restricted to the columns above.
`VWAP` follows the source exactly: typical price `(high+low+close)/3`
times volume and the volume itself are cumulated per calendar day with
`groupby('date_only').cumsum()`, and the column is their pointwise
ratio. -/
def calculate_technical_indicators (df : List Bar) : List IndRow :=
  let closes := df.map (·.close)
  let vols := df.map (·.volume)
  let ma5 := rollingMean 5 closes
  let ma10 := rollingMean 10 closes
  let ma20 := rollingMean 20 closes
  let ma60 := rollingMean 60 closes
  let obv := obvList df
  let obvMa5 := rollingMean 5 obv
  let cumTpv := groupCumsum (df.map (fun b => (b.day, (b.high + b.low + b.close) / 3 * b.volume)))
  let cumVol := groupCumsum (df.map (fun b => (b.day, b.volume)))
  let vwap := List.zipWith (fun a b => a / b) cumTpv cumVol
  let bias5 := List.zipWith (fun c m => Option.map (fun mv => (c - mv) / mv * 100) m) closes ma5
  let vma5 := rollingMean 5 vols
  let vma20 := rollingMean 20 vols
  let volRatio := List.zipWith (fun v m => Option.map (fun mv => v / mv * 100) m) vols vma20
  let roc5 := rocList 5 closes
  let roc10 := rocList 10 closes
  (List.range df.length).map (fun i =>
    { day := (df.map (·.day)).getD i ""
      close := closes.getD i 0
      volume := vols.getD i 0
      MA5 := ma5.getD i none
      MA10 := ma10.getD i none
      MA20 := ma20.getD i none
      MA60 := ma60.getD i none
      OBV := obv.getD i 0
      OBV_MA5 := obvMa5.getD i none
      VWAP := vwap.getD i 0
      BIAS_5 := bias5.getD i none
      Volume_MA5 := vma5.getD i none
      Volume_MA20 := vma20.getD i none
      VolumeRatioPct := volRatio.getD i none
      ROC_5 := roc5.getD i none
      ROC_10 := roc10.getD i none })

/-! ## Support / resistance (`calculate_support_resistance`)

The input rows carry the indicator cells the function reads from the last
row (`Option` = `NaN`-able) plus the raw highs/lows/dates used for local
extrema.  `latest.get(col, 0)` followed by `pd.notna(...)` means a `NaN`
cell skips its block, embedded by matching on the `Option`. -/

structure SRRow where
  date : String
  high : ℚ
  low : ℚ
  close : ℚ
  MA5 : Option ℚ
  MA10 : Option ℚ
  MA20 : Option ℚ
  MA60 : Option ℚ
  BB_upper : Option ℚ
  BB_lower : Option ℚ
  SAR : Option ℚ
  VWAP : Option ℚ
  ATR : Option ℚ
deriving Repr, DecidableEq

/-- A support or resistance level entry. -/
structure Level where
  price : ℚ
  desc : String
  strength : String
deriving Repr, DecidableEq

/-- Placeholder row for index accesses that are always in range. -/
def dummySR : SRRow :=
  { date := "", high := 0, low := 0, close := 0, MA5 := none, MA10 := none
    MA20 := none, MA60 := none, BB_upper := none, BB_lower := none
    SAR := none, VWAP := none, ATR := none }

/-- The moving-average block: a defined, positive MA below the close is a
support, above it a resistance (equality contributes nothing). -/
def maLevels (current : ℚ) (name : String) (v : Option ℚ) : List Level × List Level :=
  match v with
  | some x =>
    if x > 0 then
      if x < current then ([{ price := x, desc := name ++ " 支撐", strength := "medium" }], [])
      else if x > current then ([], [{ price := x, desc := name ++ " 壓力", strength := "medium" }])
      else ([], [])
    else ([], [])
  | none => ([], [])

/-- Local highs of the trailing window: a strict interior maximum of the
highs that also exceeds the current close. -/
def localHighs (recent : List SRRow) (current : ℚ) : List Level :=
  (List.range recent.length).filterMap (fun i =>
    if 1 ≤ i ∧ i + 1 < recent.length then
      let b := recent.getD i dummySR
      if b.high > (recent.getD (i - 1) dummySR).high ∧
         b.high > (recent.getD (i + 1) dummySR).high ∧ b.high > current then
        some { price := b.high, desc := "近期高點 (" ++ b.date ++ ")", strength := "medium" }
      else none
    else none)

/-- Local lows of the trailing window, symmetric to `localHighs`. -/
def localLows (recent : List SRRow) (current : ℚ) : List Level :=
  (List.range recent.length).filterMap (fun i =>
    if 1 ≤ i ∧ i + 1 < recent.length then
      let b := recent.getD i dummySR
      if b.low < (recent.getD (i - 1) dummySR).low ∧
         b.low < (recent.getD (i + 1) dummySR).low ∧ b.low < current then
        some { price := b.low, desc := "近期低點 (" ++ b.date ++ ")", strength := "medium" }
      else none
    else none)

/-- Worker of `remove_close_levels`: keep a level only when its relative
price distance to the previously kept one exceeds the tolerance. -/
def rcGo (tol : ℚ) (lastKept : Level) : List Level → List Level
  | [] => []
  | l :: ls =>
    if |l.price - lastKept.price| / lastKept.price > tol then l :: rcGo tol l ls
    else rcGo tol lastKept ls

/-- `remove_close_levels(levels, tolerance)`: the head is always kept,
later entries are dropped while within the tolerance of the last kept
entry.  The source's default tolerance is `0.005`, written `5/1000` at
the call sites below. -/
def remove_close_levels (tol : ℚ) : List Level → List Level
  | [] => []
  | l :: ls => l :: rcGo tol l ls

/-- The result of `calculate_support_resistance`. -/
structure SRResult where
  support : List Level
  resistance : List Level
  current_price : ℚ
deriving Repr, DecidableEq

/-- `calculate_support_resistance(df, num_levels)` (source default
`num_levels = 3`).  `none` models the `IndexError` of `df.iloc[-1]` on an
empty frame.  Candidate levels are collected in source order, supports
are sorted descending and resistances ascending by price (Python's stable
`sorted`), near-duplicates within 0.5% are merged keeping the first-seen
entry, and each list is truncated to `num_levels`. -/
def calculate_support_resistance (df : List SRRow) (num_levels : ℕ) : Option SRResult :=
  match df.getLast? with
  | none => none
  | some latest =>
    let current := latest.close
    let ma := [maLevels current "MA5" latest.MA5, maLevels current "MA10" latest.MA10,
               maLevels current "MA20" latest.MA20, maLevels current "MA60" latest.MA60]
    let bbRes : List Level :=
      match latest.BB_upper with
      | some x => if x > current then [{ price := x, desc := "布林上軌壓力", strength := "strong" }] else []
      | none => []
    let bbSup : List Level :=
      match latest.BB_lower with
      | some x => if x < current then [{ price := x, desc := "布林下軌支撐", strength := "strong" }] else []
      | none => []
    let sar : List Level × List Level :=
      match latest.SAR with
      | some x =>
        if x > 0 then
          if x < current then ([{ price := x, desc := "SAR 追蹤止損", strength := "strong" }], [])
          else ([], [{ price := x, desc := "SAR 壓力", strength := "strong" }])
        else ([], [])
      | none => ([], [])
    let vw : List Level × List Level :=
      match latest.VWAP with
      | some x =>
        if x > 0 then
          if x < current then ([{ price := x, desc := "VWAP 平均成本支撐", strength := "strong" }], [])
          else ([], [{ price := x, desc := "VWAP 平均成本壓力", strength := "strong" }])
        else ([], [])
      | none => ([], [])
    let recent := df.drop (df.length - 20)
    let atrLv : List Level × List Level :=
      match latest.ATR with
      | some a =>
        if a > 0 then
          ([{ price := current - a * 2, desc := "ATR 2倍止損點", strength := "strong" }],
           [{ price := current + a * 2, desc := "ATR 2倍目標價", strength := "medium" }])
        else ([], [])
      | none => ([], [])
    let supports := (ma.map Prod.fst).flatten ++ bbSup ++ sar.1 ++ vw.1 ++
      localLows recent current ++ atrLv.1
    let resistances := (ma.map Prod.snd).flatten ++ bbRes ++ sar.2 ++ vw.2 ++
      localHighs recent current ++ atrLv.2
    some { support :=
             (remove_close_levels (5/1000)
               (List.insertionSort (fun a b => b.price ≤ a.price) supports)).take num_levels
           resistance :=
             (remove_close_levels (5/1000)
               (List.insertionSort (fun a b => a.price ≤ b.price) resistances)).take num_levels
           current_price := current }

/-! ## Concrete inputs used in witnesses -/

/-- Placeholder bar for index accesses that are always in range. -/
def dummyBar : Bar := { day := "", high := 0, low := 0, close := 0, volume := 0 }

/-- A snapshot on which no scoring rule fires. -/
def neutralSnap : Snap :=
  { date := "2024-01-01", close := 100, MACD := 0, MACD_signal := 0, KD_K := 50
    KD_D := 50, RSI := 50, Williams_R := -50, ADX := 20, DI_plus := 0
    DI_minus := 0, CCI := 0, OBV := 0, BB_upper := 110, BB_lower := 90
    VolumeRatioPct := 100, ROC_5 := 0 }

/-- Previous-bar snapshot with MACD at or below its signal line. -/
def snapBelow : Snap := { neutralSnap with MACD := -1, MACD_signal := 0 }

/-- Latest-bar snapshot with MACD above its signal line and nothing else
firing. -/
def snapAbove : Snap :=
  { neutralSnap with date := "2024-01-02", MACD := 1, MACD_signal := 0 }

/-- A single indicator row with every indicator cell undefined. -/
def srRowW : SRRow :=
  { date := "01/01", high := 10, low := 9, close := 100, MA5 := none, MA10 := none
    MA20 := none, MA60 := none, BB_upper := none, BB_lower := none
    SAR := none, VWAP := none, ATR := none }

/-- Sum of the values of an association list restricted to one key; the
within-day cumulative sums of the VWAP computation are stated with it. -/
def keySum (l : List (String × ℚ)) (k : String) : ℚ :=
  ((l.filter (fun p => p.1 = k)).map Prod.snd).sum

/-! # Theorems -/

/-! ## Shared helper lemmas -/

theorem pyRoundInt_intCast (n : ℤ) : pyRoundInt (n : ℚ) = n := by
  unfold pyRoundInt
  rw [Int.floor_intCast]
  norm_num

theorem pyRound2_intCast (n : ℤ) : pyRound2 ((n : ℚ) / 100) = (n : ℚ) / 100 := by
  unfold pyRound2
  rw [show ((n : ℚ) / 100 * 100) = (n : ℚ) by field_simp, pyRoundInt_intCast]

theorem pyRound2_int (n : ℤ) : pyRound2 (n : ℚ) = n := by
  have h := pyRound2_intCast (n * 100)
  rw [show (((n * 100 : ℤ) : ℚ) / 100) = (n : ℚ) by push_cast; ring] at h
  exact h

/-! ## Claim C5 -/

/-- Claim C5: for every input sequence of fewer than 2 snapshots
(including the empty sequence) the signal composer returns the explicit
"no signal" value `none` (and, being a total function, cannot raise). -/
theorem C5_short_input_no_signal (df : List Snap) (h : df.length < 2) :
    get_daytrading_signals df = none := by
  match df with
  | [] => rfl
  | [a] => rfl
  | a :: b :: t => simp only [List.length_cons] at h; omega

/-- Witness for C5 at the empty sequence. -/
theorem C5_short_input_no_signal_witness :
    ([] : List Snap).length < 2 ∧ get_daytrading_signals [] = none :=
  ⟨by decide, C5_short_input_no_signal [] (by decide)⟩

/-! ## Claim C9 -/

/-- Claim C9: the stop-loss helper computes stop = price − 2×ATR,
take-profit = price + 2×ATR×riskRewardRatio, conservative stop =
price − 1.5×ATR, aggressive stop = price − 2.5×ATR (each rounded to two
decimals as in the source), and at price=100, ATR=2, riskRewardRatio=2 it
returns 96.00 / 108.00 / 97.00 / 95.00 with risk 4.00 and reward 8.00. -/
theorem C9_stop_loss_take_profit :
    (∀ price atr rrr : ℚ,
      calculate_stop_loss_take_profit price atr rrr =
        { stop_loss := pyRound2 (price - 2 * atr)
          take_profit := pyRound2 (price + 2 * atr * rrr)
          conservative_stop := pyRound2 (price - 3/2 * atr)
          aggressive_stop := pyRound2 (price - 5/2 * atr)
          risk_amount := pyRound2 (2 * atr)
          reward_amount := pyRound2 (2 * atr * rrr)
          rrSetting := rrr }) ∧
    calculate_stop_loss_take_profit 100 2 2 =
      { stop_loss := 96, take_profit := 108, conservative_stop := 97
        aggressive_stop := 95, risk_amount := 4, reward_amount := 8, rrSetting := 2 } := by
  constructor
  · intro price atr rrr
    simp only [calculate_stop_loss_take_profit]
    congr 1 <;> ring_nf
  · simp only [calculate_stop_loss_take_profit]
    rw [show (100 : ℚ) - 2 * 2 = ((96 : ℤ) : ℚ) by norm_num,
        show (100 : ℚ) + 2 * 2 * 2 = ((108 : ℤ) : ℚ) by norm_num,
        show (100 : ℚ) - 2 * (3/2) = ((97 : ℤ) : ℚ) by norm_num,
        show (100 : ℚ) - 2 * (5/2) = ((95 : ℤ) : ℚ) by norm_num]
    rw [pyRound2_int, pyRound2_int, pyRound2_int, pyRound2_int]
    rw [show ((100 : ℚ) - ((96 : ℤ) : ℚ)) = ((4 : ℤ) : ℚ) by norm_num,
        show (((108 : ℤ) : ℚ) - 100) = ((8 : ℤ) : ℚ) by norm_num]
    rw [pyRound2_int, pyRound2_int]
    norm_num

/-! ## Claim C2 -/

/-- Claim C2 is a code bug: `save_stock_data` is documented in-source as
replacing duplicates, but issues a plain `INSERT`; on a second call with
updated values for an already-stored `(symbol, date)` the UNIQUE
constraint fires, the swallowed exception rolls the batch back, and the
stored row keeps its old values (here `close = 100`, not the new `200`).
The first conjunct shows the first store, the second the silently
discarded update. -/
theorem C2_saveStock_update_is_discarded :
    save_stock_data [] ("2330")
        [{ date := "2024-01-01", opn := 10, high := 11, low := 9, close := 100, volume := 1000 }] =
      [{ symbol := "2330", date := "2024-01-01", opn := 10, high := 11, low := 9
         close := 100, volume := 1000 }] ∧
    save_stock_data
        [{ symbol := "2330", date := "2024-01-01", opn := 10, high := 11, low := 9
           close := 100, volume := 1000 }]
        ("2330")
        [{ date := "2024-01-01", opn := 10, high := 11, low := 9, close := 200, volume := 1000 }] =
      [{ symbol := "2330", date := "2024-01-01", opn := 10, high := 11, low := 9
         close := 100, volume := 1000 }] :=
  ⟨rfl, rfl⟩

/-! ## Claim C6 -/

/-- Claim C6 is a code bug: a news record saved at 2026-01-01 10:00:00
with ttl = 24h is still returned 24h01m later.  `expires_at` is stored in
Python ISO format with a `'T'` separator while the query compares it as
text against SQLite's space-separated `datetime('now')`; since
`'T' > ' '` and `'T'` exceeds every digit, the record survives the whole
expiry day.  First conjunct: retrievable at +23h59m (the claim's true
half); second: still retrievable at +24h01m (the claim says absent). -/
theorem C6_news_survives_past_ttl :
    get_news_cache
        (save_news_cache [] ("2330") ("headline") ("perplexity") 24
          { year := 2026, month := 1, day := 1, hour := 10, minute := 0, second := 0, micro := 0 })
        ("2330")
        { year := 2026, month := 1, day := 2, hour := 9, minute := 59, second := 0, micro := 0 } =
      some ("headline", "perplexity", "2026-01-01 10:00:00") ∧
    get_news_cache
        (save_news_cache [] ("2330") ("headline") ("perplexity") 24
          { year := 2026, month := 1, day := 1, hour := 10, minute := 0, second := 0, micro := 0 })
        ("2330")
        { year := 2026, month := 1, day := 2, hour := 10, minute := 1, second := 0, micro := 0 } =
      some ("headline", "perplexity", "2026-01-01 10:00:00") := by
  constructor <;> rfl

/-! ## Claim C7 -/

theorem foldl_iorp_filter_other (s : String) :
    ∀ (rs : List InstRow) (acc : List InstRow), (∀ r ∈ rs, r.symbol = s) →
      (rs.foldl instInsertOrReplace acc).filter (fun e => ¬e.symbol = s) =
        acc.filter (fun e => ¬e.symbol = s) := by
  intro rs
  induction rs with
  | nil => intro acc _; rfl
  | cons r rest ih =>
    intro acc hall
    have hr : r.symbol = s := hall r (List.mem_cons_self r rest)
    have hrest : ∀ x ∈ rest, x.symbol = s := fun x hx => hall x (List.mem_cons_of_mem r hx)
    rw [List.foldl_cons, ih (instInsertOrReplace acc r) hrest]
    unfold instInsertOrReplace
    rw [List.filter_append, List.filter_filter]
    have h1 : (List.filter (fun e => decide ¬e.symbol = s) [r]) = [] := by
      simp [List.filter, hr]
    rw [h1, List.append_nil]
    apply List.filter_congr
    intro x _
    by_cases hx : x.symbol = s
    · simp [hx]
    · have : ¬(x.symbol = r.symbol ∧ x.date = r.date) := by
        rintro ⟨h', _⟩; exact hx (h'.trans hr)
      simp [hx, this]

theorem foldl_iorp_symbol_dates (s : String) (ds : List String) :
    ∀ (rs : List InstRow) (acc : List InstRow),
      (∀ r ∈ acc, r.symbol = s → r.date ∈ ds) → (∀ r ∈ rs, r.date ∈ ds) →
      ∀ r ∈ rs.foldl instInsertOrReplace acc, r.symbol = s → r.date ∈ ds := by
  intro rs
  induction rs with
  | nil => intro acc hacc _ r hr hs; exact hacc r hr hs
  | cons x rest ih =>
    intro acc hacc hall r hr hs
    refine ih (instInsertOrReplace acc x) ?_ (fun y hy => hall y (List.mem_cons_of_mem x hy)) r hr hs
    intro y hy hys
    unfold instInsertOrReplace at hy
    rcases List.mem_append.mp hy with hy1 | hy2
    · exact hacc y (List.mem_of_mem_filter hy1) hys
    · rcases List.mem_singleton.mp hy2 with rfl
      exact hall y (List.mem_cons_self y rest)

/-- Counterexample to claim C7: the symbol's previously stored row for
2024-01-01 is *deleted* when a later batch containing only 2024-01-02 is
saved — `save_institutional_data` first deletes every row of the symbol.
Only the other symbol's row survives alongside the new batch row. -/
theorem C7_counterexample_outside_date_deleted :
    save_institutional_data
        [{ symbol := "2330", date := "2024-01-01", foreign_investor := 1, investment_trust := 1
           dealer_self := 1, dealer_hedging := 1, dealer_total := 2, total_institutional := 4 },
         { symbol := "2317", date := "2024-01-01", foreign_investor := 7, investment_trust := 7
           dealer_self := 7, dealer_hedging := 7, dealer_total := 14, total_institutional := 28 }]
        ("2330")
        [{ date := "2024-01-02", foreign_investor := 5, investment_trust := 5
           dealer_self := 5, dealer_hedging := 5, dealer_total := 10, total_institutional := 20 }] =
      ([{ symbol := "2317", date := "2024-01-01", foreign_investor := 7, investment_trust := 7
          dealer_self := 7, dealer_hedging := 7, dealer_total := 14, total_institutional := 28 },
        { symbol := "2330", date := "2024-01-02", foreign_investor := 5, investment_trust := 5
          dealer_self := 5, dealer_hedging := 5, dealer_total := 10, total_institutional := 20 }],
       true) := rfl

/-- Claim C7 amended: `putInstitutional` is *not* a per-date upsert that
preserves the symbol's other dates; a non-empty batch first deletes every
stored row of the symbol and then inserts the batch rows
(`INSERT OR REPLACE` keyed `(symbol, date)`).  Rows of *other* symbols
are untouched, and every surviving row of the symbol carries a date from
the batch. -/
theorem C7_inst_replaces_symbol_history (table : List InstRow) (s : String)
    (df : List InstIn) (h : df ≠ []) :
    ((save_institutional_data table s df).1.filter (fun e => ¬e.symbol = s) =
      table.filter (fun e => ¬e.symbol = s)) ∧
    (∀ r ∈ (save_institutional_data table s df).1, r.symbol = s →
      r.date ∈ df.map InstIn.date) ∧
    (save_institutional_data table s df).2 = true := by
  have hne : df.isEmpty = false := by
    cases df with
    | nil => exact absurd rfl h
    | cons x xs => rfl
  unfold save_institutional_data
  rw [hne]
  simp only [Bool.false_eq_true, if_false]
  refine ⟨?_, ?_, trivial⟩
  · rw [foldl_iorp_filter_other s _ _ ?_, List.filter_filter]
    · apply List.filter_congr
      intro x _
      by_cases hx : x.symbol = s <;> simp [hx]
    · intro r hr
      rcases List.mem_map.mp hr with ⟨b, _, rfl⟩
      rfl
  · apply foldl_iorp_symbol_dates s (df.map InstIn.date)
    · intro r hr hs
      exact absurd hs (by simpa using List.of_mem_filter hr)
    · intro r hr
      rcases List.mem_map.mp hr with ⟨b, hb, rfl⟩
      exact List.mem_map.mpr ⟨b, hb, rfl⟩

/-- Witness for the amended C7 theorem at a concrete non-empty batch. -/
theorem C7_inst_replaces_symbol_history_witness :
    ((save_institutional_data [] ("2330")
        [{ date := "2024-01-02", foreign_investor := 5, investment_trust := 5
           dealer_self := 5, dealer_hedging := 5, dealer_total := 10
           total_institutional := 20 }]).1.filter (fun e => ¬e.symbol = "2330") =
      ([] : List InstRow).filter (fun e => ¬e.symbol = "2330")) ∧
    (save_institutional_data [] ("2330")
        [{ date := "2024-01-02", foreign_investor := 5, investment_trust := 5
           dealer_self := 5, dealer_hedging := 5, dealer_total := 10
           total_institutional := 20 }]).2 = true := by
  have h := C7_inst_replaces_symbol_history [] ("2330")
    [{ date := "2024-01-02", foreign_investor := 5, investment_trust := 5
       dealer_self := 5, dealer_hedging := 5, dealer_total := 10
       total_institutional := 20 }] (by simp)
  exact ⟨h.1, h.2.2⟩

/-! ## Claim C10 -/

theorem clamp_rec_consistent (s : ℤ) :
    -100 ≤ max (min s 100) (-100) ∧ max (min s 100) (-100) ≤ 100 ∧
    (recommendationOf s = "STRONG_BUY" ↔ 30 ≤ max (min s 100) (-100)) ∧
    (recommendationOf s = "BUY" ↔
      (15 ≤ max (min s 100) (-100) ∧ max (min s 100) (-100) < 30)) ∧
    (recommendationOf s = "STRONG_SELL" ↔ max (min s 100) (-100) ≤ -30) ∧
    (recommendationOf s = "SELL" ↔
      (-30 < max (min s 100) (-100) ∧ max (min s 100) (-100) ≤ -15)) ∧
    (recommendationOf s = "HOLD" ↔
      (-15 < max (min s 100) (-100) ∧ max (min s 100) (-100) < 15)) := by
  unfold recommendationOf
  rcases le_or_lt 30 s with h1 | h1
  · rw [if_pos (by omega)]
    exact ⟨by omega, by omega, by simp; omega, by simp; omega, by simp; omega,
      by simp; omega, by simp; omega⟩
  rcases le_or_lt 15 s with h2 | h2
  · rw [if_neg (by omega), if_pos (by omega)]
    exact ⟨by omega, by omega, by simp; omega, by simp; omega, by simp; omega,
      by simp; omega, by simp; omega⟩
  rcases le_or_lt s (-30) with h3 | h3
  · rw [if_neg (by omega), if_neg (by omega), if_pos (by omega)]
    exact ⟨by omega, by omega, by simp; omega, by simp; omega, by simp; omega,
      by simp; omega, by simp; omega⟩
  rcases le_or_lt s (-15) with h4 | h4
  · rw [if_neg (by omega), if_neg (by omega), if_neg (by omega), if_pos (by omega)]
    exact ⟨by omega, by omega, by simp; omega, by simp; omega, by simp; omega,
      by simp; omega, by simp; omega⟩
  · rw [if_neg (by omega), if_neg (by omega), if_neg (by omega), if_neg (by omega)]
    exact ⟨by omega, by omega, by simp; omega, by simp; omega, by simp; omega,
      by simp; omega, by simp; omega⟩

/-- Claim C10: whenever the signal composer produces a report, the
reported strength lies in [-100, 100] and the reported recommendation is
exactly the threshold classification of that reported (clamped)
strength. -/
theorem C10_strength_matches_recommendation (df : List Snap) (r : Signals)
    (h : get_daytrading_signals df = some r) :
    -100 ≤ r.strength ∧ r.strength ≤ 100 ∧
    (r.recommendation = "STRONG_BUY" ↔ 30 ≤ r.strength) ∧
    (r.recommendation = "BUY" ↔ (15 ≤ r.strength ∧ r.strength < 30)) ∧
    (r.recommendation = "STRONG_SELL" ↔ r.strength ≤ -30) ∧
    (r.recommendation = "SELL" ↔ (-30 < r.strength ∧ r.strength ≤ -15)) ∧
    (r.recommendation = "HOLD" ↔ (-15 < r.strength ∧ r.strength < 15)) := by
  unfold get_daytrading_signals at h
  rcases hrev : df.reverse with _ | ⟨latest, rest1⟩
  · rw [hrev] at h; exact absurd h (by simp)
  rcases rest1 with _ | ⟨prevRow, rest⟩
  · rw [hrev] at h; exact absurd h (by simp)
  rw [hrev] at h
  simp only [Option.some.injEq] at h
  subst h
  exact clamp_rec_consistent _

/-- Witness for C10 on a two-snapshot input on which no rule fires. -/
theorem C10_strength_matches_recommendation_witness :
    get_daytrading_signals [neutralSnap, neutralSnap] =
      some { timestamp := "2024-01-01", price := 100, signals := []
             strength := 0, recommendation := "HOLD" } ∧
    (({ timestamp := "2024-01-01", price := 100, signals := []
        strength := 0, recommendation := "HOLD" } : Signals).recommendation = "HOLD" ↔
      (-15 < ({ timestamp := "2024-01-01", price := 100, signals := []
                strength := 0, recommendation := "HOLD" } : Signals).strength ∧
       ({ timestamp := "2024-01-01", price := 100, signals := []
          strength := 0, recommendation := "HOLD" } : Signals).strength < 15)) :=
  ⟨rfl,
   (C10_strength_matches_recommendation [neutralSnap, neutralSnap] _ rfl).2.2.2.2.2.2⟩

/-! ## Claim C3 -/

/-- Claim C3: on a two-snapshot input where the MACD line crosses from
at-or-below the signal line (previous difference ≤ 0) to above it
(current difference > 0) and no other scoring rule fires, the composite
score is exactly +15 and the recommendation is BUY. -/
theorem C3_macd_golden_cross_scores_15_buy (a b : Snap)
    (hprev : a.MACD - a.MACD_signal ≤ 0)
    (hcur : 0 < b.MACD - b.MACD_signal)
    (hkd1 : ¬(b.KD_K > b.KD_D ∧ a.KD_K ≤ a.KD_D))
    (hkd2 : ¬(b.KD_K < b.KD_D ∧ a.KD_K ≥ a.KD_D))
    (hrsi1 : ¬b.RSI < 30) (hrsi2 : ¬b.RSI > 70)
    (hwr1 : ¬b.Williams_R > -20) (hwr2 : ¬b.Williams_R < -80)
    (hadx : ¬b.ADX > 25)
    (hcci1 : ¬b.CCI > 100) (hcci2 : ¬b.CCI < -100)
    (hbb1 : ¬b.close > b.BB_upper) (hbb2 : ¬b.close < b.BB_lower)
    (hvol : ¬b.VolumeRatioPct > 150)
    (hroc1 : ¬b.ROC_5 > 5) (hroc2 : ¬b.ROC_5 < -5) :
    get_daytrading_signals [a, b] =
      some { timestamp := b.date, price := b.close, signals := ["MACD 金叉 (買進)"]
             strength := 15, recommendation := "BUY" } := by
  have hrev : ([a, b] : List Snap).reverse = [b, a] := by simp
  have h1 : macdRule a b = (["MACD 金叉 (買進)"], 15) := by
    have hc : b.MACD > b.MACD_signal := sub_pos.mp hcur
    have hp : a.MACD ≤ a.MACD_signal := sub_nonpos.mp hprev
    rw [macdRule, if_pos ⟨hc, hp⟩]
  have h2 : kdRule a b = ([], 0) := by
    rw [kdRule, if_neg hkd1, if_neg hkd2]
  have h3 : rsiRule b = ([], 0) := by rw [rsiRule, if_neg hrsi1, if_neg hrsi2]
  have h4 : wrRule b = ([], 0) := by rw [wrRule, if_neg hwr1, if_neg hwr2]
  have h5 : adxRule b = ([], 0) := by rw [adxRule, if_neg hadx]
  have h6 : cciRule b = ([], 0) := by rw [cciRule, if_neg hcci1, if_neg hcci2]
  have h7 : obvRule [b, a] b = ([], 0) := rfl
  have h8 : bbRule b = ([], 0) := by rw [bbRule, if_neg hbb1, if_neg hbb2]
  have h9 : volRule b = ([], 0) := by rw [volRule, if_neg hvol]
  have h10 : rocRule b = ([], 0) := by rw [rocRule, if_neg hroc1, if_neg hroc2]
  unfold get_daytrading_signals
  rw [hrev]
  simp only [h1, h2, h3, h4, h5, h6, h7, h8, h9, h10]
  rfl

/-- Witness for C3: concrete snapshots realising the golden cross with
every other rule silent. -/
theorem C3_macd_golden_cross_scores_15_buy_witness :
    get_daytrading_signals [snapBelow, snapAbove] =
      some { timestamp := "2024-01-02", price := 100, signals := ["MACD 金叉 (買進)"]
             strength := 15, recommendation := "BUY" } :=
  C3_macd_golden_cross_scores_15_buy snapBelow snapAbove
    (by norm_num [snapBelow, neutralSnap])
    (by norm_num [snapAbove, neutralSnap])
    (by norm_num [snapBelow, snapAbove, neutralSnap])
    (by norm_num [snapBelow, snapAbove, neutralSnap])
    (by norm_num [snapAbove, neutralSnap])
    (by norm_num [snapAbove, neutralSnap])
    (by norm_num [snapAbove, neutralSnap])
    (by norm_num [snapAbove, neutralSnap])
    (by norm_num [snapAbove, neutralSnap])
    (by norm_num [snapAbove, neutralSnap])
    (by norm_num [snapAbove, neutralSnap])
    (by norm_num [snapAbove, neutralSnap])
    (by norm_num [snapAbove, neutralSnap])
    (by norm_num [snapAbove, neutralSnap])
    (by norm_num [snapAbove, neutralSnap])
    (by norm_num [snapAbove, neutralSnap])

/-! ## Claim C1 -/

theorem getD_map_range {α} (n i : ℕ) (g : ℕ → α) (d : α) :
    ((List.range n).map g).getD i d = if i < n then g i else d := by
  rw [List.getD_eq_getElem?_getD, List.getElem?_map]
  by_cases h : i < n
  · rw [List.getElem?_range h, if_pos h]; rfl
  · rw [List.getElem?_eq_none (by simpa using Nat.le_of_not_lt h), if_neg h]; rfl

theorem rollingMean_getD_none (w : ℕ) (xs : List ℚ) (i : ℕ) (h : i + 1 < w) :
    (rollingMean w xs).getD i none = none := by
  unfold rollingMean
  rw [getD_map_range]
  by_cases hi : i < xs.length
  · rw [if_pos hi, if_neg (by omega)]
  · rw [if_neg hi]

theorem rocList_getD_none (k : ℕ) (xs : List ℚ) (i : ℕ) (h : i < k) :
    (rocList k xs).getD i none = none := by
  unfold rocList
  rw [getD_map_range]
  by_cases hi : i < xs.length
  · rw [if_pos hi, if_neg (by omega)]
  · rw [if_neg hi]

theorem zipOpt_getD_none (xs : List ℚ) (ms : List (Option ℚ)) (g : ℚ → ℚ → ℚ) (i : ℕ)
    (hm : ms.getD i none = none) :
    (List.zipWith (fun v m => Option.map (g v) m) xs ms).getD i none = none := by
  rw [List.getD_eq_getElem?_getD] at hm ⊢
  rw [List.getElem?_zipWith]
  rcases hx : xs[i]? with _ | x
  · rfl
  rcases hm2 : ms[i]? with _ | m
  · rfl
  · rw [hm2] at hm
    simp only [Option.getD_some] at hm
    subst hm
    rfl

theorem take_prefix_none {α} (n k : ℕ) (g : ℕ → Option α) (h : ∀ i, i < k → g i = none) :
    ((List.range n).map g).take k = List.replicate (min k n) none := by
  rw [← List.map_take, List.take_range]
  refine List.eq_replicate_iff.mpr ⟨by simp, ?_⟩
  intro b hb
  rcases List.mem_map.mp hb with ⟨i, hi, rfl⟩
  exact h i (by have := List.mem_range.mp hi; omega)

/-- Claim C1: every embedded windowed indicator column carries the
explicit undefined marker `none` — never the number zero — at each of its
first `window − 1` positions (for the `shift(k)`-based rate-of-change
columns, at the first `k` positions).  Because the prefix is capped by
`min` at the frame length, this also settles the case of an input shorter
than the window: there every position of the column is `none`.  The final
conjunct records that the marker is distinct from every numeric value,
in particular from zero. -/
theorem C1_windowed_prefix_undefined (df : List Bar) :
    ((calculate_technical_indicators df).map (·.MA5)).take 4 =
        List.replicate (min 4 df.length) none ∧
    ((calculate_technical_indicators df).map (·.MA10)).take 9 =
        List.replicate (min 9 df.length) none ∧
    ((calculate_technical_indicators df).map (·.MA20)).take 19 =
        List.replicate (min 19 df.length) none ∧
    ((calculate_technical_indicators df).map (·.MA60)).take 59 =
        List.replicate (min 59 df.length) none ∧
    ((calculate_technical_indicators df).map (·.OBV_MA5)).take 4 =
        List.replicate (min 4 df.length) none ∧
    ((calculate_technical_indicators df).map (·.Volume_MA5)).take 4 =
        List.replicate (min 4 df.length) none ∧
    ((calculate_technical_indicators df).map (·.Volume_MA20)).take 19 =
        List.replicate (min 19 df.length) none ∧
    ((calculate_technical_indicators df).map (·.VolumeRatioPct)).take 19 =
        List.replicate (min 19 df.length) none ∧
    ((calculate_technical_indicators df).map (·.BIAS_5)).take 4 =
        List.replicate (min 4 df.length) none ∧
    ((calculate_technical_indicators df).map (·.ROC_5)).take 5 =
        List.replicate (min 5 df.length) none ∧
    ((calculate_technical_indicators df).map (·.ROC_10)).take 10 =
        List.replicate (min 10 df.length) none ∧
    ∀ q : ℚ, (none : Option ℚ) ≠ some q := by
  refine ⟨?_, ?_, ?_, ?_, ?_, ?_, ?_, ?_, ?_, ?_, ?_, fun q h => by cases h⟩
  · have e : (calculate_technical_indicators df).map (·.MA5) =
        (List.range df.length).map
          (fun i => (rollingMean 5 (df.map (·.close))).getD i none) := by
      simp only [calculate_technical_indicators, List.map_map]
      rfl
    rw [e]
    exact take_prefix_none _ _ _ (fun i hi => rollingMean_getD_none 5 _ i (by omega))
  · have e : (calculate_technical_indicators df).map (·.MA10) =
        (List.range df.length).map
          (fun i => (rollingMean 10 (df.map (·.close))).getD i none) := by
      simp only [calculate_technical_indicators, List.map_map]
      rfl
    rw [e]
    exact take_prefix_none _ _ _ (fun i hi => rollingMean_getD_none 10 _ i (by omega))
  · have e : (calculate_technical_indicators df).map (·.MA20) =
        (List.range df.length).map
          (fun i => (rollingMean 20 (df.map (·.close))).getD i none) := by
      simp only [calculate_technical_indicators, List.map_map]
      rfl
    rw [e]
    exact take_prefix_none _ _ _ (fun i hi => rollingMean_getD_none 20 _ i (by omega))
  · have e : (calculate_technical_indicators df).map (·.MA60) =
        (List.range df.length).map
          (fun i => (rollingMean 60 (df.map (·.close))).getD i none) := by
      simp only [calculate_technical_indicators, List.map_map]
      rfl
    rw [e]
    exact take_prefix_none _ _ _ (fun i hi => rollingMean_getD_none 60 _ i (by omega))
  · have e : (calculate_technical_indicators df).map (·.OBV_MA5) =
        (List.range df.length).map
          (fun i => (rollingMean 5 (obvList df)).getD i none) := by
      simp only [calculate_technical_indicators, List.map_map]
      rfl
    rw [e]
    exact take_prefix_none _ _ _ (fun i hi => rollingMean_getD_none 5 _ i (by omega))
  · have e : (calculate_technical_indicators df).map (·.Volume_MA5) =
        (List.range df.length).map
          (fun i => (rollingMean 5 (df.map (·.volume))).getD i none) := by
      simp only [calculate_technical_indicators, List.map_map]
      rfl
    rw [e]
    exact take_prefix_none _ _ _ (fun i hi => rollingMean_getD_none 5 _ i (by omega))
  · have e : (calculate_technical_indicators df).map (·.Volume_MA20) =
        (List.range df.length).map
          (fun i => (rollingMean 20 (df.map (·.volume))).getD i none) := by
      simp only [calculate_technical_indicators, List.map_map]
      rfl
    rw [e]
    exact take_prefix_none _ _ _ (fun i hi => rollingMean_getD_none 20 _ i (by omega))
  · have e : (calculate_technical_indicators df).map (·.VolumeRatioPct) =
        (List.range df.length).map
          (fun i => (List.zipWith
            (fun v m => Option.map (fun mv => v / mv * 100) m)
            (df.map (·.volume)) (rollingMean 20 (df.map (·.volume)))).getD i none) := by
      simp only [calculate_technical_indicators, List.map_map]
      rfl
    rw [e]
    exact take_prefix_none _ _ _ (fun i hi =>
      zipOpt_getD_none _ _ (fun v mv => v / mv * 100) i
        (rollingMean_getD_none 20 _ i (by omega)))
  · have e : (calculate_technical_indicators df).map (·.BIAS_5) =
        (List.range df.length).map
          (fun i => (List.zipWith
            (fun c m => Option.map (fun mv => (c - mv) / mv * 100) m)
            (df.map (·.close)) (rollingMean 5 (df.map (·.close)))).getD i none) := by
      simp only [calculate_technical_indicators, List.map_map]
      rfl
    rw [e]
    exact take_prefix_none _ _ _ (fun i hi =>
      zipOpt_getD_none _ _ (fun c mv => (c - mv) / mv * 100) i
        (rollingMean_getD_none 5 _ i (by omega)))
  · have e : (calculate_technical_indicators df).map (·.ROC_5) =
        (List.range df.length).map
          (fun i => (rocList 5 (df.map (·.close))).getD i none) := by
      simp only [calculate_technical_indicators, List.map_map]
      rfl
    rw [e]
    exact take_prefix_none _ _ _ (fun i hi => rocList_getD_none 5 _ i hi)
  · have e : (calculate_technical_indicators df).map (·.ROC_10) =
        (List.range df.length).map
          (fun i => (rocList 10 (df.map (·.close))).getD i none) := by
      simp only [calculate_technical_indicators, List.map_map]
      rfl
    rw [e]
    exact take_prefix_none _ _ _ (fun i hi => rocList_getD_none 10 _ i hi)

/-! ## Claim C8 -/

theorem alistGet_set_self (k : String) (v : ℚ) :
    ∀ l : List (String × ℚ), alistGet k (alistSet k v l) = some v := by
  intro l
  induction l with
  | nil => simp [alistSet, alistGet]
  | cons p rest ih =>
    rcases p with ⟨k', v'⟩
    by_cases h : k' = k
    · simp [alistSet, alistGet, h]
    · simp [alistSet, alistGet, h, ih]

theorem alistGet_set_other (k k₂ : String) (v : ℚ) (h : k₂ ≠ k) :
    ∀ l : List (String × ℚ), alistGet k₂ (alistSet k v l) = alistGet k₂ l := by
  intro l
  induction l with
  | nil => simp [alistSet, alistGet, Ne.symm h]
  | cons p rest ih =>
    rcases p with ⟨k', v'⟩
    by_cases hk : k' = k
    · subst hk
      simp [alistSet, alistGet, Ne.symm h]
    · simp [alistSet, alistGet, hk, ih]

theorem keySum_append (a b : List (String × ℚ)) (k : String) :
    keySum (a ++ b) k = keySum a k + keySum b k := by
  unfold keySum
  rw [List.filter_append, List.map_append, List.sum_append]

theorem keySum_singleton (k k' : String) (v : ℚ) :
    keySum [(k, v)] k' = if k = k' then v else 0 := by
  unfold keySum
  by_cases h : k = k'
  · simp [List.filter, h]
  · simp [List.filter, h]

theorem gcsAux_length (l : List (String × ℚ)) :
    ∀ acc, (gcsAux acc l).length = l.length := by
  induction l with
  | nil => intro acc; rfl
  | cons p rest ih =>
    intro acc
    rcases p with ⟨k, v⟩
    simp only [gcsAux, List.length_cons, ih]

theorem gcsAux_getD (rest : List (String × ℚ)) :
    ∀ (done acc : List (String × ℚ)),
      (∀ k, (alistGet k acc).getD 0 = keySum done k) →
      ∀ i, i < rest.length →
        (gcsAux acc rest).getD i 0 =
          keySum (done ++ rest.take (i + 1)) ((rest.getD i ("", 0)).1) := by
  induction rest with
  | nil => intro done acc hacc i hi; simp at hi
  | cons p rest' ih =>
    intro done acc hacc i hi
    rcases p with ⟨k, v⟩
    rcases i with _ | i
    · simp only [gcsAux, List.getD_cons_zero, hacc k, List.take_succ_cons, List.take_zero]
      rw [keySum_append, keySum_singleton]
      simp
    · simp only [gcsAux, List.getD_cons_succ, List.take_succ_cons]
      rw [ih (done ++ [(k, v)]) _ ?_ i (by simpa using hi)]
      · rw [List.append_cons done (k, v) (rest'.take (i + 1))]
      · intro k'
        by_cases hk : k' = k
        · subst hk
          rw [alistGet_set_self, keySum_append, keySum_singleton]
          simp [hacc k']
        · rw [alistGet_set_other k k' _ hk, hacc k', keySum_append, keySum_singleton,
              if_neg (Ne.symm hk), add_zero]

theorem groupCumsum_getD (pairs : List (String × ℚ)) (i : ℕ) (hi : i < pairs.length) :
    (groupCumsum pairs).getD i 0 = keySum (pairs.take (i + 1)) ((pairs.getD i ("", 0)).1) := by
  have h := gcsAux_getD pairs [] [] (fun k => by simp [alistGet, keySum]) i hi
  simpa [groupCumsum] using h

theorem getD_map_lt {α β : Type} (f : α → β) (l : List α) (i : ℕ) (h : i < l.length)
    (d : β) (d' : α) : (l.map f).getD i d = f (l.getD i d') := by
  rw [List.getD_eq_getElem?_getD, List.getD_eq_getElem?_getD, List.getElem?_map,
      List.getElem?_eq_getElem h]
  rfl

theorem zipWith_getD_lt {α β γ : Type} (f : α → β → γ) (as : List α) (bs : List β) (i : ℕ)
    (ha : i < as.length) (hb : i < bs.length) (da : α) (db : β) (dc : γ) :
    (List.zipWith f as bs).getD i dc = f (as.getD i da) (bs.getD i db) := by
  rw [List.getD_eq_getElem?_getD, List.getD_eq_getElem?_getD, List.getD_eq_getElem?_getD,
      List.getElem?_zipWith, List.getElem?_eq_getElem ha, List.getElem?_eq_getElem hb]
  rfl

theorem keySum_map_pairs (l : List Bar) (fs : Bar → String) (fv : Bar → ℚ) (k : String) :
    keySum (l.map (fun b => (fs b, fv b))) k = ((l.filter (fun b => fs b = k)).map fv).sum := by
  unfold keySum
  rw [List.filter_map, List.map_map]
  rfl

/-- The VWAP column equals, bar by bar, the within-day cumulative
typical-price-volume over the within-day cumulative volume. -/
theorem vwap_eq_within_day (df : List Bar) :
    (calculate_technical_indicators df).map (·.VWAP) =
      (List.range df.length).map (fun i =>
        (((df.take (i + 1)).filter (fun c => c.day = (df.getD i dummyBar).day)).map
            (fun c => (c.high + c.low + c.close) / 3 * c.volume)).sum /
          (((df.take (i + 1)).filter (fun c => c.day = (df.getD i dummyBar).day)).map
            (·.volume)).sum) := by
  have e : (calculate_technical_indicators df).map (·.VWAP) =
      (List.range df.length).map (fun i =>
        (List.zipWith (fun a b => a / b)
          (groupCumsum (df.map (fun b => (b.day, (b.high + b.low + b.close) / 3 * b.volume))))
          (groupCumsum (df.map (fun b => (b.day, b.volume))))).getD i 0) := by
    simp only [calculate_technical_indicators, List.map_map]
    rfl
  rw [e]
  apply List.map_congr_left
  intro i hi
  have hin : i < df.length := List.mem_range.mp hi
  have len1 : (groupCumsum (df.map (fun b => (b.day, (b.high + b.low + b.close) / 3 * b.volume)))).length = df.length := by
    simp [groupCumsum, gcsAux_length]
  have len2 : (groupCumsum (df.map (fun b => (b.day, b.volume)))).length = df.length := by
    simp [groupCumsum, gcsAux_length]
  rw [zipWith_getD_lt _ _ _ i (by omega) (by omega) 0 0 0]
  rw [groupCumsum_getD _ i (by simpa using hin), groupCumsum_getD _ i (by simpa using hin)]
  rw [getD_map_lt _ df i hin ("", 0) dummyBar, getD_map_lt _ df i hin ("", 0) dummyBar]
  rw [← List.map_take, ← List.map_take]
  rw [keySum_map_pairs (df.take (i + 1)) (fun b => b.day)
        (fun b => (b.high + b.low + b.close) / 3 * b.volume),
      keySum_map_pairs (df.take (i + 1)) (fun b => b.day) (fun b => b.volume)]

/-- Claim C8: VWAP is cumulative (typical price × volume) over cumulative
volume with both sums starting over at each calendar-day group — for
every bar it equals the ratio over the bar's same-day prefix.  The second
and third conjuncts exhibit the day reset on a two-day frame: the second
bar's VWAP is its own day's ratio (20), not the whole-series running
ratio (40/3). -/
theorem C8_vwap_resets_per_day (df : List Bar) :
    ((calculate_technical_indicators df).map (·.VWAP) =
      (List.range df.length).map (fun i =>
        (((df.take (i + 1)).filter (fun c => c.day = (df.getD i dummyBar).day)).map
            (fun c => (c.high + c.low + c.close) / 3 * c.volume)).sum /
          (((df.take (i + 1)).filter (fun c => c.day = (df.getD i dummyBar).day)).map
            (·.volume)).sum)) ∧
    (calculate_technical_indicators
        [{ day := "2024-01-01", high := 10, low := 10, close := 10, volume := 100 },
         { day := "2024-01-02", high := 20, low := 20, close := 20, volume := 50 }]).map (·.VWAP) =
      [10, 20] ∧
    (20 : ℚ) ≠ (10 * 100 + 20 * 50) / (100 + 50) := by
  refine ⟨vwap_eq_within_day df, ?_, by norm_num⟩
  rw [vwap_eq_within_day]
  norm_num [List.range_succ, List.filter,
    show decide ("2024-01-01" = "2024-01-02") = false from rfl]

/-! ## Claim C4 -/

theorem rcGo_sublist (tol : ℚ) :
    ∀ (ls : List Level) (l0 : Level), (rcGo tol l0 ls).Sublist ls := by
  intro ls
  induction ls with
  | nil => intro l0; exact List.Sublist.refl []
  | cons x xs ih =>
    intro l0
    unfold rcGo
    by_cases h : |x.price - l0.price| / l0.price > tol
    · rw [if_pos h]; exact List.Sublist.cons₂ x (ih x)
    · rw [if_neg h]; exact List.Sublist.cons x (ih l0)

theorem remove_close_sublist (tol : ℚ) (l : List Level) :
    (remove_close_levels tol l).Sublist l := by
  cases l with
  | nil => exact List.Sublist.refl []
  | cons x xs => exact List.Sublist.cons₂ x (rcGo_sublist tol xs x)

theorem rcGo_chain (tol : ℚ) :
    ∀ (ls : List Level) (l0 : Level),
      List.Chain (fun a b => |b.price - a.price| / a.price > tol) l0 (rcGo tol l0 ls) := by
  intro ls
  induction ls with
  | nil => intro l0; exact List.Chain.nil
  | cons x xs ih =>
    intro l0
    unfold rcGo
    by_cases h : |x.price - l0.price| / l0.price > tol
    · rw [if_pos h]; exact List.Chain.cons h (ih x)
    · rw [if_neg h]; exact ih l0

theorem remove_close_chain (tol : ℚ) (l : List Level) :
    List.Chain' (fun a b => |b.price - a.price| / a.price > tol) (remove_close_levels tol l) := by
  cases l with
  | nil => exact trivial
  | cons x xs => exact rcGo_chain tol xs x

theorem postprocess_spec (rel : Level → Level → Prop) [inst : DecidableRel rel]
    (htot : ∀ a b, rel a b ∨ rel b a) (htr : ∀ a b c, rel a b → rel b c → rel a c)
    (lv : List Level) (n : ℕ) (tol : ℚ) :
    ((remove_close_levels tol (List.insertionSort rel lv)).take n).Pairwise rel ∧
    List.Chain' (fun a b => |b.price - a.price| / a.price > tol)
      ((remove_close_levels tol (List.insertionSort rel lv)).take n) ∧
    ((remove_close_levels tol (List.insertionSort rel lv)).take n).length ≤ n := by
  refine ⟨?_, (remove_close_chain tol _).take n, List.length_take_le n _⟩
  have hsorted : (List.insertionSort rel lv).Pairwise rel :=
    @List.sorted_insertionSort Level rel inst ⟨htot⟩ ⟨htr⟩ lv
  have hsub : ((remove_close_levels tol (List.insertionSort rel lv)).take n).Sublist
      (List.insertionSort rel lv) :=
    (List.take_sublist _ _).trans (remove_close_sublist _ _)
  exact List.Pairwise.sublist hsub hsorted

/-- Claim C4: in the LevelFinder output the support list is sorted
descending and the resistance list ascending by price, any two
consecutive kept levels are more than 0.5% apart in relative price (a
candidate within the tolerance of the previously kept level was merged
away, first-seen winning), and each list has at most `num_levels`
entries.  The last two conjuncts check the claim's merge examples:
100.00 with 100.3 collapse to the first level, 100.00 with 101.00 both
survive. -/
theorem C4_levels_sorted_merged_truncated :
    (∀ (df : List SRRow) (n : ℕ) (r : SRResult),
      calculate_support_resistance df n = some r →
        r.support.Pairwise (fun a b => b.price ≤ a.price) ∧
        r.resistance.Pairwise (fun a b => a.price ≤ b.price) ∧
        List.Chain' (fun a b => |b.price - a.price| / a.price > 5/1000) r.support ∧
        List.Chain' (fun a b => |b.price - a.price| / a.price > 5/1000) r.resistance ∧
        r.support.length ≤ n ∧ r.resistance.length ≤ n) ∧
    remove_close_levels (5/1000)
        [{ price := 100, desc := "A", strength := "medium" },
         { price := 1003/10, desc := "B", strength := "medium" }] =
      [{ price := 100, desc := "A", strength := "medium" }] ∧
    remove_close_levels (5/1000)
        [{ price := 100, desc := "A", strength := "medium" },
         { price := 101, desc := "B", strength := "medium" }] =
      [{ price := 100, desc := "A", strength := "medium" },
       { price := 101, desc := "B", strength := "medium" }] := by
  refine ⟨?_, ?_, ?_⟩
  · intro df n r h
    unfold calculate_support_resistance at h
    rcases hlast : df.getLast? with _ | latest
    · rw [hlast] at h; exact absurd h (by simp)
    rw [hlast] at h
    simp only [Option.some.injEq] at h
    subst h
    refine ⟨?_, ?_, ?_, ?_, ?_, ?_⟩
    · exact (postprocess_spec (fun a b : Level => b.price ≤ a.price)
        (fun a b => le_total b.price a.price)
        (fun a b c h1 h2 => le_trans h2 h1) _ n _).1
    · exact (postprocess_spec (fun a b : Level => a.price ≤ b.price)
        (fun a b => le_total a.price b.price)
        (fun a b c h1 h2 => le_trans h1 h2) _ n _).1
    · exact (postprocess_spec (fun a b : Level => b.price ≤ a.price)
        (fun a b => le_total b.price a.price)
        (fun a b c h1 h2 => le_trans h2 h1) _ n _).2.1
    · exact (postprocess_spec (fun a b : Level => a.price ≤ b.price)
        (fun a b => le_total a.price b.price)
        (fun a b c h1 h2 => le_trans h1 h2) _ n _).2.1
    · exact (postprocess_spec (fun a b : Level => b.price ≤ a.price)
        (fun a b => le_total b.price a.price)
        (fun a b c h1 h2 => le_trans h2 h1) _ n _).2.2
    · exact (postprocess_spec (fun a b : Level => a.price ≤ b.price)
        (fun a b => le_total a.price b.price)
        (fun a b c h1 h2 => le_trans h1 h2) _ n _).2.2
  · simp only [remove_close_levels, rcGo]
    norm_num [abs_of_nonneg]
  · simp only [remove_close_levels, rcGo]
    norm_num [abs_of_nonneg]

/-- Witness for the quantified part of C4 at a one-row frame with every
indicator cell undefined. -/
theorem C4_levels_sorted_merged_truncated_witness :
    calculate_support_resistance [srRowW] 3 =
      some { support := [], resistance := [], current_price := 100 } ∧
    ({ support := [], resistance := [], current_price := 100 } : SRResult).support.length ≤ 3 ∧
    ({ support := [], resistance := [], current_price := 100 } : SRResult).resistance.length ≤ 3 := by
  have h := (C4_levels_sorted_merged_truncated).1 [srRowW] 3
    { support := [], resistance := [], current_price := 100 } rfl
  exact ⟨rfl, h.2.2.2.2.1, h.2.2.2.2.2⟩
